import Mathlib

/-!
Shallow embedding of the Performance Checker measurement engine
(service_worker.js, popup.js, report.js): the per-tab session state, the
chrome.debugger network-event listener, the start/stop lifecycle with
injectable outcomes for the external Chrome/CDP steps, report assembly
and the insight engine.  External primitives (the chrome debugger, tabs
and messaging APIs and the platform URL parser) are modelled as
parameters or injected outcomes; everything else is translated directly
from the JavaScript source.
-/

namespace PerfChecker

-- ── Association-list helpers modelling JS `Map` ─────────────────────────────

/-- Update mirroring `Map.set`: JS maps preserve insertion order and updating
an existing key keeps its position. -/
def mapSet [DecidableEq κ] (k : κ) (v : α) : List (κ × α) → List (κ × α)
  | [] => [(k, v)]
  | (k2, v2) :: rest => if k2 = k then (k, v) :: rest else (k2, v2) :: mapSet k v rest

/-- Lookup mirroring `Map.get`. -/
def alookup [DecidableEq κ] (k : κ) : List (κ × α) → Option α
  | [] => none
  | (k2, v2) :: rest => if k2 = k then some v2 else alookup k rest

/-- Removal mirroring `Map.delete`. -/
def adelete [DecidableEq κ] (k : κ) : List (κ × α) → List (κ × α)
  | [] => []
  | (k2, v2) :: rest => if k2 = k then adelete k rest else (k2, v2) :: adelete k rest

/-- Membership mirroring `Map.has`. -/
def ahas [DecidableEq κ] (k : κ) (l : List (κ × α)) : Bool :=
  (alookup k l).isSome

-- ── Data model (service_worker.js lines 19-40) ──────────────────────────────

/-- Entry of `session.requestMap` (service_worker.js lines 53-60, mutated at
lines 67-74 and 81-96).  The opaque `response.timing` object is stored by the
source but never read anywhere, so it is elided here. -/
structure PendingRequest where
  url : String
  /-- `domainOf(request.url)`: `none` models the `null` returned when the URL
  does not parse. -/
  domain : Option String
  /-- `initiator?.type ?? "other"`. -/
  itype : String
  /-- `params.type ?? null` (CDP resource type). -/
  resourceType : Option String
  /-- `Date.now()` at request start. -/
  startMs : Int
  /-- CDP MonotonicTime in seconds, `timestamp ?? null`. -/
  startTimestamp : Option ℚ
  fromCache : Option Bool := none
  mimeType : Option String := none
  status : Option Int := none
  transferBytes : Option Nat := none
  durationMs : Option ℚ := none
deriving DecidableEq

/-- Entry of `session.failures` (service_worker.js lines 104-108). -/
structure FailureRec where
  url : String
  errorText : String
  ftype : String
deriving DecidableEq

/-- Value of `session.domainMap` (service_worker.js line 86). -/
structure DomainStat where
  domain : String
  requests : Nat
  bytes : Nat
deriving DecidableEq

/-- SessionState (service_worker.js `createSession`, lines 19-36). -/
structure Session where
  tabId : Nat
  startTime : Int
  coldLoad : Bool := false
  traceEnabled : Bool := false
  requestsTotal : Nat := 0
  transferredBytes : Nat := 0
  cacheHits : Nat := 0
  failures : List FailureRec := []
  domainMap : List (String × DomainStat) := []
  requestMap : List (String × PendingRequest) := []
  traceChunks : List String := []
  traceSize : Nat := 0
deriving DecidableEq

/-- `createSession(tabId)` (service_worker.js lines 19-36); `now` models
`Date.now()`. -/
def createSession (tabId : Nat) (now : Int) : Session :=
  { tabId := tabId, startTime := now }

-- ── The platform URL parser and domainOf ────────────────────────────────────

/-- `domainOf(url)` (service_worker.js lines 155-158): wraps the platform URL
parser, here a parameter `parseHost` modelling `new URL(url).hostname`; the
`catch` branch for unparseable URLs is modelled by `parseHost` returning
`none`. -/
def domainOf (parseHost : String → Option String) (url : String) : Option String :=
  parseHost url

/-- Leading run of characters before the first slash: the hostname part of
the remainder of a `scheme://host/rest` URL. -/
def hostChars : List Char → List Char
  | [] => []
  | c :: rest => if c = '/' then [] else c :: hostChars rest

/-- Concrete instance of the platform URL parser used in the closed theorems
of this file: it computes `new URL(u).hostname` for plain
`http(s)://host/...` URLs (the only well-formed URL shape appearing in the
concrete inputs below) and returns `none` (the thrown-TypeError branch of
`domainOf`) for every other string. -/
def urlHostModel (u : String) : Option String :=
  if u.data.take 8 = "https://".data then
    match hostChars (u.data.drop 8) with
    | [] => none
    | host => some (String.mk host)
  else if u.data.take 7 = "http://".data then
    match hostChars (u.data.drop 7) with
    | [] => none
    | host => some (String.mk host)
  else none

-- ── Network events (chrome.debugger.onEvent payloads) ───────────────────────

/-- The event kinds consumed by the `chrome.debugger.onEvent` listener
(service_worker.js lines 44-127).  `nowMs` models the value of `Date.now()`
at handling time.  For `tracingDataCollected`, `chunk` models
`JSON.stringify(params.value)` when `params.value` is truthy and `none`
otherwise. -/
inductive NetEvent where
  | requestWillBeSent (requestId url : String) (initiatorType : Option String)
      (resourceType : Option String) (timestamp : Option ℚ) (nowMs : Int)
  | responseReceived (requestId : String)
      (fromDiskCache fromPrefetchCache fromServiceWorker : Bool)
      (mimeType : Option String) (status : Int)
  | loadingFinished (requestId : String) (encodedDataLength : Option Nat)
      (timestamp : Option ℚ) (nowMs : Int)
  | loadingFailed (requestId : String) (errorText : Option String)
      (ltype : Option String)
  | tracingDataCollected (chunk : Option String)
  | tracingComplete
deriving DecidableEq

/-- Bump of a `domainMap` entry (service_worker.js lines 85-90): insert
`{domain, requests: 0, bytes: 0}` if absent, then increment. -/
def domainBump (domain : String) (bytes : Nat) :
    List (String × DomainStat) → List (String × DomainStat)
  | [] => [(domain, { domain := domain, requests := 1, bytes := bytes })]
  | (k, d) :: rest =>
    if k = domain then
      (k, { d with requests := d.requests + 1, bytes := d.bytes + bytes }) :: rest
    else
      (k, d) :: domainBump domain bytes rest

/-- The body of the `chrome.debugger.onEvent` listener for one session
(service_worker.js lines 48-126), translated case by case. -/
def handleEvent (parseHost : String → Option String) (session : Session) :
    NetEvent → Session
  | .requestWillBeSent rid url initiatorType rtype ts now =>
    { session with
      requestsTotal := session.requestsTotal + 1,
      requestMap := mapSet rid
        { url := url
          domain := domainOf parseHost url
          itype := initiatorType.getD "other"
          resourceType := rtype
          startMs := now
          startTimestamp := ts } session.requestMap }
  | .responseReceived rid dc pc sw mime st =>
    match alookup rid session.requestMap with
    | none => session
    | some req =>
      let cached : Bool := dc || pc || sw
      { session with
        cacheHits := if cached then session.cacheHits + 1 else session.cacheHits,
        requestMap := mapSet rid
          { req with
            fromCache := some cached
            mimeType := some (mime.getD "")
            status := some st } session.requestMap }
  | .loadingFinished rid enc ts now =>
    match alookup rid session.requestMap with
    | none => session
    | some req =>
      -- `const bytes = encodedDataLength || 0`
      let bytes := enc.getD 0
      let domain := req.domain.getD "unknown"
      -- prefer the CDP MonotonicTime delta, else the Date.now() delta
      let dur : ℚ :=
        match ts, req.startTimestamp with
        | some t, some st0 => (t - st0) * 1000
        | _, _ => ((now - req.startMs : Int) : ℚ)
      { session with
        transferredBytes := session.transferredBytes + bytes,
        domainMap := domainBump domain bytes session.domainMap,
        requestMap := mapSet rid
          { req with transferBytes := some bytes, durationMs := some dur }
          session.requestMap }
  | .loadingFailed rid errText ltype =>
    match alookup rid session.requestMap with
    | none => session
    | some req =>
      -- `type: type ?? req.type ?? "other"`; `req.type` is always a string
      -- here, so the final `?? "other"` can never trigger
      { session with
        failures := session.failures ++
          [{ url := req.url, errorText := errText.getD "unknown",
             ftype := ltype.getD req.itype }] }
  | .tracingDataCollected chunk =>
    match chunk with
    | none => session
    | some c =>
      if session.traceEnabled then
        { session with
          traceChunks := session.traceChunks ++ [c],
          traceSize := session.traceSize + c.length }
      else session
  | .tracingComplete => session

/-- Fold of the listener over a list of delivered events. -/
def runEvents (parseHost : String → Option String) (session : Session)
    (evs : List NetEvent) : Session :=
  evs.foldl (handleEvent parseHost) session

-- ── Resource classification (service_worker.js lines 173-194) ───────────────

/-- JS `String.prototype.includes`. -/
def strIncludes (s sub : String) : Bool :=
  (s.splitOn sub).length ≥ 2

/-- The MIME-type fallback half of `classifyResourceType`
(service_worker.js lines 183-193); `(mimeType || "")` maps an absent or
empty MIME type to the empty string. -/
def mimeCategory (mimeType : Option String) : String :=
  let m := ((((mimeType.getD "").splitOn ";").headD "").trim).toLower
  if strIncludes m "javascript" || m = "application/ecmascript" then "script"
  else if m = "text/css" then "css"
  else if m.startsWith "image/" || m.startsWith "video/" || m.startsWith "audio/" then "img"
  else if m.startsWith "font/" || m = "application/font-woff" ||
          m = "application/font-woff2" || strIncludes m "opentype" then "font"
  else "other"

/-- `classifyResourceType(resourceType, mimeType)` (service_worker.js
lines 173-194); `if (resourceType)` is JS truthiness, so an absent or empty
resource type goes straight to the MIME fallback, and a resource type
matching none of the five cases falls through to it as well. -/
def classifyResourceType (resourceType : Option String) (mimeType : Option String) : String :=
  match resourceType with
  | some rty =>
    if rty = "" then mimeCategory mimeType
    else
      let rt := rty.toLower
      if rt = "script" then "script"
      else if rt = "stylesheet" then "css"
      else if rt = "image" || rt = "media" then "img"
      else if rt = "font" then "font"
      else if rt = "xhr" || rt = "fetch" then "xhr/fetch"
      else mimeCategory mimeType
  | none => mimeCategory mimeType

-- ── Network data assembly (service_worker.js lines 363-405) ─────────────────

/-- Element of `networkData.byDomain` (service_worker.js lines 367-370). -/
structure DomainRollup where
  domain : String
  requests : Nat
  bytes : Nat
  thirdParty : Bool
deriving DecidableEq

/-- Value of `byTypeMap` (service_worker.js line 382). -/
structure TypeStat where
  rtype : String
  requests : Nat
  bytes : Nat
deriving DecidableEq

/-- Element of `cdpRequests` (service_worker.js lines 385-393). -/
structure CdpRequest where
  url : String
  domain : Option String
  rtype : String
  durationMs : ℚ
  transferBytes : Nat
  status : Option Int
  fromCache : Bool
deriving DecidableEq

/-- The `networkData` object returned by `stopMeasurement`
(service_worker.js lines 397-405). -/
structure NetworkData where
  requestsTotal : Nat
  transferredBytes : Nat
  cacheHitRate : Option ℚ
  failures : List FailureRec
  byDomain : List DomainRollup
  byType : List TypeStat
  slowest : List CdpRequest
deriving DecidableEq

/-- Bump of a `byTypeMap` entry (service_worker.js lines 382-384). -/
def typeBump (t : String) (bytes : Nat) :
    List (String × TypeStat) → List (String × TypeStat)
  | [] => [(t, { rtype := t, requests := 1, bytes := bytes })]
  | (k, s) :: rest =>
    if k = t then
      (k, { s with requests := s.requests + 1, bytes := s.bytes + bytes }) :: rest
    else
      (k, s) :: typeBump t bytes rest

/-- The `for (const req of session.requestMap.values())` loop of
`stopMeasurement` (service_worker.js lines 377-394): requests that never
finished (`durationMs == null`) are skipped; the rest accumulate into the
insertion-ordered `byTypeMap` and the `cdpRequests` list. -/
def typeAndSlowAcc (reqs : List PendingRequest) :
    List (String × TypeStat) × List CdpRequest :=
  reqs.foldl
    (fun (acc : List (String × TypeStat) × List CdpRequest) req =>
      match req.durationMs with
      | none => acc
      | some dur =>
        let t := classifyResourceType req.resourceType req.mimeType
        (typeBump t (req.transferBytes.getD 0) acc.1,
         acc.2 ++ [{ url := req.url, domain := req.domain, rtype := t,
                     durationMs := dur,
                     transferBytes := req.transferBytes.getD 0,
                     status := req.status, fromCache := req.fromCache.getD false }]))
    ([], [])

/-- Stable insertion for `sortByGt`: keep the elements strictly greater
than `a` in front, place `a` before the first element not greater than it. -/
def insertByGt (gt : α → α → Bool) (a : α) : List α → List α
  | [] => [a]
  | b :: l => if gt b a then b :: insertByGt gt a l else a :: b :: l

/-- Stable sort putting greater elements first: the behaviour of JS
`Array.prototype.sort` (stable per the language spec) under a comparator
`(a, b) => key(b) - key(a)`; elements with equal keys keep input order. -/
def sortByGt (gt : α → α → Bool) : List α → List α
  | [] => []
  | a :: l => insertByGt gt a (sortByGt gt l)

/-- The network-data half of `stopMeasurement` (service_worker.js
lines 363-405), as a pure function of the final session state and the page
host `domainOf(tab?.url ?? "")`.  `Array.prototype.sort` with the
comparators `b.bytes - a.bytes` / `b.durationMs - a.durationMs` is the
stable descending sort `sortByGt`.  The JS truthiness test
`pageHost ? ... : false` treats both a null and an empty host as unknown. -/
def buildNetworkData (session : Session) (pageHost : Option String) : NetworkData :=
  let domainList := session.domainMap.map (fun p =>
    { domain := p.2.domain, requests := p.2.requests, bytes := p.2.bytes,
      thirdParty :=
        match pageHost with
        | some h => if h = "" then false else decide (p.2.domain ≠ h)
        | none => false })
  let domainSorted := sortByGt (fun a b => a.bytes > b.bytes) domainList
  let cacheHitRate : Option ℚ :=
    if session.requestsTotal > 0 then
      some ((session.cacheHits : ℚ) / (session.requestsTotal : ℚ))
    else none
  let acc := typeAndSlowAcc (session.requestMap.map Prod.snd)
  let cdpSorted := sortByGt (fun a b => a.durationMs > b.durationMs) acc.2
  { requestsTotal := session.requestsTotal
    transferredBytes := session.transferredBytes
    cacheHitRate := cacheHitRate
    failures := session.failures
    byDomain := domainSorted
    byType := acc.1.map Prod.snd
    slowest := cdpSorted.take 10 }

-- ── Session store and observable actions ────────────────────────────────────

/-- The `sessions` map (service_worker.js line 17), `tabId → SessionState`. -/
def Store := List (Nat × Session)

/-- Observable primitive effects of the lifecycle functions, in program
order.  `storeSet` records the session value written, so that the in-place
mutation `session.traceEnabled = false` (service_worker.js line 296) — here
modelled as re-storing the updated value — is visible in the trace. -/
inductive Act where
  | attach (tabId : Nat)
  | detach (tabId : Nat)
  | cmd (tabId : Nat) (method : String)
  | sendTab (tabId : Nat) (msg : String)
  | tabsReload (tabId : Nat)
  | injectScript (tabId : Nat)
  | storeSet (tabId : Nat) (session : Session)
  | storeDelete (tabId : Nat)
deriving DecidableEq

/-- Whether an action is a `sessions.set`. -/
def Act.isStoreSet : Act → Bool
  | .storeSet _ _ => true
  | _ => false

/-- Whether an action is the `Network.enable` command. -/
def Act.isNetworkEnable : Act → Bool
  | .cmd _ m => m = "Network.enable"
  | _ => false

-- ── startMeasurement (service_worker.js lines 254-322) ──────────────────────

/-- The options object of `startMeasurement`. -/
structure StartOptions where
  coldLoad : Bool := false
  traceEnabled : Bool := false
deriving DecidableEq

/-- Injected outcomes for the external steps of `startMeasurement`: each
models whether the corresponding Chrome/CDP call succeeds or rejects. -/
structure StartEnv where
  attachOk : Bool := true
  networkEnableOk : Bool := true
  tracingStartOk : Bool := true
  /-- joint outcome of the three cold-load CDP commands. -/
  coldCdpOk : Bool := true
  fallbackReloadOk : Bool := true
  /-- whether the content-script ping answers ok. -/
  pingOk : Bool := true
  injectOk : Bool := true
  nowMs : Int := 0
deriving DecidableEq

/-- Result of a lifecycle call: the value or thrown error, the session
store, the set of tabs with an attached debugger, and the trace of
observable actions. -/
structure StartOutcome where
  result : Except String Unit
  store : Store
  attached : List Nat
  acts : List Act

/-- `startMeasurement(tabId, {coldLoad, traceEnabled})` (service_worker.js
lines 254-322).  The cold-load block and content-script block only touch
the external world, so on this model they contribute actions but no state;
the error strings keep the fixed prefix of the source message. -/
def startMeasurement (store : Store) (attached : List Nat) (tabId : Nat)
    (opts : StartOptions) (env : StartEnv) : StartOutcome :=
  if ahas tabId store then
    { result := .error "Measurement already active for this tab."
      store := store, attached := attached, acts := [] }
  else if ¬ env.attachOk then
    { result := .error "Failed to attach debugger"
      store := store, attached := attached, acts := [] }
  else
    let session := { createSession tabId env.nowMs with
                     coldLoad := opts.coldLoad, traceEnabled := opts.traceEnabled }
    let store1 := mapSet tabId session store
    let acts1 := [Act.attach tabId, Act.storeSet tabId session]
    if ¬ env.networkEnableOk then
      { result := .error "Failed to enable Network"
        store := adelete tabId store1
        attached := (tabId :: attached).erase tabId
        acts := acts1 ++ [Act.cmd tabId "Network.enable",
                          Act.detach tabId, Act.storeDelete tabId] }
    else
      let acts2 := acts1 ++ [Act.cmd tabId "Network.enable"]
      -- Tracing.start: failure is non-fatal, it clears session.traceEnabled
      -- in place (modelled as a second storeSet of the updated session)
      let tr := opts.traceEnabled ∧ ¬ env.tracingStartOk
      let session2 := if tr then { session with traceEnabled := false } else session
      let store2 := if tr then mapSet tabId session2 store1 else store1
      let acts3 :=
        if opts.traceEnabled then
          if env.tracingStartOk then acts2 ++ [Act.cmd tabId "Tracing.start"]
          else acts2 ++ [Act.cmd tabId "Tracing.start", Act.storeSet tabId session2]
        else acts2
      let acts4 :=
        if opts.coldLoad then
          if env.coldCdpOk then
            acts3 ++ [Act.cmd tabId "Network.clearBrowserCache",
                      Act.cmd tabId "Page.enable", Act.cmd tabId "Page.reload"]
          else acts3 ++ [Act.tabsReload tabId]
        else acts3
      let acts5 :=
        acts4 ++ [Act.sendTab tabId "GET_METRICS"] ++
          (if env.pingOk then [] else [Act.injectScript tabId]) ++
          (if env.pingOk ∨ env.injectOk then [Act.sendTab tabId "START_OBSERVERS"] else [])
      { result := .ok (), store := store2, attached := tabId :: attached,
        acts := acts5 }

-- ── stopMeasurement (service_worker.js lines 326-408) ───────────────────────

/-- The page metrics snapshot delivered by the content script
(`GET_METRICS` response); every field is optional. -/
structure PageMetrics where
  ttfb : Option ℚ := none
  fcp : Option ℚ := none
  lcp : Option ℚ := none
  inp : Option ℚ := none
  cls : Option ℚ := none
  dcl : Option ℚ := none
  load : Option ℚ := none
  longTaskCount : Option Nat := none
  longTaskTotal : Option ℚ := none
  longTaskMax : Option ℚ := none
deriving DecidableEq

/-- The `traceInfo` value of `stopMeasurement` (service_worker.js
lines 331, 349-356). -/
structure TraceInfo where
  captured : Bool
  sizeBytes : Nat := 0
  chunks : List String := []
deriving DecidableEq

/-- Injected outcomes and deliveries for the best-effort steps of
`stopMeasurement`: an exception in the page-metrics snapshot step, the
snapshot value itself (`none` models a missing or not-ok response), an
exception in the observer-stop step (swallowed, and followed by no further
statement in its try block), an exception in `Tracing.end`, the trace
events delivered during the 500 ms grace wait, and the tab URL visible to
`getTab` afterwards (`none` models a closed tab). -/
structure StopEnv where
  snapshotThrows : Bool := false
  metricsResp : Option PageMetrics := none
  observersThrow : Bool := false
  traceEndThrows : Bool := false
  graceEvents : List NetEvent := []
  tabUrl : Option String := none

/-- The `{ pageMetrics, networkData, traceInfo }` value returned by
`stopMeasurement`. -/
structure StopResult where
  pageMetrics : PageMetrics
  networkData : NetworkData
  traceInfo : TraceInfo

/-- Result of `stopMeasurement`: the returned value or thrown error, the
session store afterwards, and the trace of observable actions. -/
structure StopOutcome where
  result : Except String StopResult
  store : Store
  acts : List Act

/-- `stopMeasurement(tabId)` (service_worker.js lines 326-408).  The
`finally` block always runs `detachDebugger` and `sessions.delete`; events
arriving at the other await points are modelled only during the trace grace
wait, the one await the claims mention.  Report assembly after the finally
block is the pure `buildNetworkData` of the session value. -/
def stopMeasurement (parseHost : String → Option String) (store : Store)
    (tabId : Nat) (env : StopEnv) : StopOutcome :=
  match alookup tabId store with
  | none =>
    { result := .error "No active measurement for this tab.", store := store, acts := [] }
  | some session0 =>
    -- inner try/catch around the page-probe messages
    let pageMetrics :=
      if env.snapshotThrows then {} else env.metricsResp.getD {}
    let actsA :=
      if env.snapshotThrows then [Act.sendTab tabId "GET_METRICS"]
      else [Act.sendTab tabId "GET_METRICS", Act.sendTab tabId "STOP_OBSERVERS"]
    -- trace end + bounded grace wait
    let traceActive := session0.traceEnabled ∧ session0.traceChunks.length = 0
    let session1 :=
      if traceActive ∧ ¬ env.traceEndThrows then
        runEvents parseHost session0 env.graceEvents
      else session0
    let actsB := if traceActive then actsA ++ [Act.cmd tabId "Tracing.end"] else actsA
    let traceInfo : TraceInfo :=
      if session1.traceChunks.length > 0 then
        { captured := true, sizeBytes := session1.traceSize, chunks := session1.traceChunks }
      else { captured := false }
    -- finally: always detach and remove the session
    let acts := actsB ++ [Act.detach tabId, Act.storeDelete tabId]
    let store1 := adelete tabId store
    -- report assembly (after the finally block)
    let pageHost := domainOf parseHost (env.tabUrl.getD "")
    { result := .ok
        { pageMetrics := pageMetrics
          networkData := buildNetworkData session1 pageHost
          traceInfo := traceInfo }
      store := store1
      acts := acts }

-- ── Report and insight engine (popup.js lines 44-135) ───────────────────────

/-- Severity class of an insight: the `cls` field of the objects pushed by
`generateInsights` in popup.js (`"poor"`, `"needs"`, `"good"`); the label
`needs` corresponds to the rule severity spelled `needs-improvement` in
report.js. -/
inductive Severity where
  | good
  | needs
  | poor
deriving DecidableEq

/-- Which rule of `generateInsights` produced a finding, one constructor per
`insights.push` site in popup.js lines 48-94, in source order. -/
inductive RuleTag where
  | lcpVerySlow
  | lcpNeeds
  | inpHigh
  | longTasksHigh
  | clsHigh
  | ttfbSlow
  | heavyPage
  | manyRequests
  | thirdPartyShare
  | lowCacheRate
  | failuresPresent
  | allGood
deriving DecidableEq

/-- One finding of `generateInsights`.  The human-readable message string is
presentational (it interpolates the same numbers the rule tested, plus the
optional LCP element description) and is elided; a finding is identified by
its severity class and the rule that fired. -/
structure Insight where
  cls : Severity
  rule : RuleTag
deriving DecidableEq

/-- The `timings` object of a RunReport (popup.js lines 99-107): every
metric nullable. -/
structure Timings where
  ttfb : Option ℚ := none
  fcp : Option ℚ := none
  lcp : Option ℚ := none
  inp : Option ℚ := none
  cls : Option ℚ := none
  dcl : Option ℚ := none
  load : Option ℚ := none
deriving DecidableEq

/-- The `longTasks` object (popup.js lines 108-112); `generateInsights`
destructures `longTasks = {}`, so the fields are optional here. -/
structure LongTasks where
  count : Option Nat := none
  totalMs : Option ℚ := none
  maxMs : Option ℚ := none
deriving DecidableEq

/-- The `network` object of a RunReport as read by `generateInsights`
(popup.js lines 73-91); every field can be absent, since the function
accepts partial reports.  An `Option` of a list distinguishes a missing
field (JS `undefined`, falsy) from an empty array (truthy). -/
structure ReportNetwork where
  requestsTotal : Option Nat := none
  transferredBytes : Option Nat := none
  cacheHitRate : Option ℚ := none
  failures : Option (List FailureRec) := none
  byDomain : Option (List DomainRollup) := none
deriving DecidableEq

/-- The RunReport fields consumed by `generateInsights`.  The fields
`meta`, `resources`, `lcpElement`, `clsSources` and `trace` only feed
rendering or message text and are elided. -/
structure Report where
  timings : Timings := {}
  longTasks : LongTasks := {}
  network : ReportNetwork := {}
deriving DecidableEq

/-- JS comparison `x > n` where `x` may be `undefined` (undefined compares
false against every number). -/
def optGtNat (x : Option Nat) (n : Nat) : Bool :=
  match x with
  | some v => v > n
  | none => false

/-- `generateInsights(report)` (popup.js lines 44-96), rule by rule in
source order.  Thresholds are the inlined constants of the source:
4000/2500 for lcp, 200 for inp and long tasks, 0.25/0.1 for cls, 800 for
ttfb, `2 * 1024 * 1024` bytes, 150 requests, 0.3 third-party share,
`requestsTotal > 5 && cacheHitRate < 0.3` for caching. -/
def generateInsights (r : Report) : List Insight :=
  let t := r.timings
  let n := r.network
  let i : List Insight := []
  let i := match t.lcp with
    | some v =>
      if v > 4000 then i ++ [⟨.poor, .lcpVerySlow⟩]
      else if v > 2500 then i ++ [⟨.needs, .lcpNeeds⟩]
      else i
    | none => i
  let i := match t.inp with
    | some v => if v > 200 then i ++ [⟨.poor, .inpHigh⟩] else i
    | none => i
  let i := match r.longTasks.totalMs with
    | some v => if v > 200 then i ++ [⟨.poor, .longTasksHigh⟩] else i
    | none => i
  let i := match t.cls with
    | some v =>
      if v > (0.1 : ℚ) then
        i ++ [⟨if v > (0.25 : ℚ) then .poor else .needs, .clsHigh⟩]
      else i
    | none => i
  let i := match t.ttfb with
    | some v => if v > 800 then i ++ [⟨.needs, .ttfbSlow⟩] else i
    | none => i
  let i := match n.transferredBytes with
    | some b => if b > 2 * 1024 * 1024 then i ++ [⟨.poor, .heavyPage⟩] else i
    | none => i
  let i := match n.requestsTotal with
    | some c => if c > 150 then i ++ [⟨.poor, .manyRequests⟩] else i
    | none => i
  let i := match n.byDomain with
    | some ds =>
      let totalBytes := (ds.map (fun d => d.bytes)).sum
      let thirdBytes := ((ds.filter (fun d => d.thirdParty)).map (fun d => d.bytes)).sum
      if totalBytes > 0 ∧ (thirdBytes : ℚ) / (totalBytes : ℚ) > (0.3 : ℚ) then
        i ++ [⟨.needs, .thirdPartyShare⟩]
      else i
    | none => i
  let i := match n.cacheHitRate with
    | some rate =>
      if optGtNat n.requestsTotal 5 ∧ rate < (0.3 : ℚ) then
        i ++ [⟨.needs, .lowCacheRate⟩]
      else i
    | none => i
  let i := match n.failures with
    | some fs => if fs.length > 0 then i ++ [⟨.poor, .failuresPresent⟩] else i
    | none => i
  if i.isEmpty then [⟨.good, .allGood⟩] else i

/-- `buildRunReport(meta, pageMetrics, networkData, traceInfo)` (popup.js
lines 98-135) restricted to the fields `generateInsights` consumes: timings
default to null, long-task aggregates default to 0, network fields come
from the service-worker network data with the listed defaults. -/
def buildRunReport (pageMetrics : PageMetrics) (networkData : NetworkData) : Report :=
  { timings :=
      { ttfb := pageMetrics.ttfb, fcp := pageMetrics.fcp, lcp := pageMetrics.lcp,
        inp := pageMetrics.inp, cls := pageMetrics.cls, dcl := pageMetrics.dcl,
        load := pageMetrics.load }
    longTasks :=
      { count := some (pageMetrics.longTaskCount.getD 0)
        totalMs := some (pageMetrics.longTaskTotal.getD 0)
        maxMs := some (pageMetrics.longTaskMax.getD 0) }
    network :=
      { requestsTotal := some networkData.requestsTotal
        transferredBytes := some networkData.transferredBytes
        cacheHitRate := networkData.cacheHitRate
        failures := some networkData.failures
        byDomain := some networkData.byDomain } }

-- ── Auxiliary definitions used by the statements below ──────────────────────

/-- Whether an event is a `Network.responseReceived` for `rid`. -/
def isResponseTo (rid : String) : NetEvent → Bool
  | .responseReceived r _ _ _ _ _ => r = rid
  | _ => false

/-- Number of `Network.responseReceived` events for `rid` in a delivery. -/
def respCount (rid : String) (evs : List NetEvent) : Nat :=
  (evs.filter (isResponseTo rid)).length

/-- Event-source sanity condition: each request identifier receives at most
one `Network.responseReceived` event in the delivered sequence. -/
def atMostOneResponse (evs : List NetEvent) : Prop :=
  ∀ rid, respCount rid evs ≤ 1

/-- Number of request-map entries that have not yet received a
`Network.responseReceived` event (their `fromCache` field is unset). -/
def pendingLen (l : List (String × PendingRequest)) : Nat :=
  (l.filter (fun p => p.2.fromCache.isNone)).length

/-- Inductive invariant for the cache-hit counter: the hits plus the
requests still awaiting their response never exceed the request total, and
every request that already got its response receives no further response
event in the remaining delivery `evs`. -/
def CacheInv (s : Session) (evs : List NetEvent) : Prop :=
  s.cacheHits + pendingLen s.requestMap ≤ s.requestsTotal ∧
  ∀ rid req, alookup rid s.requestMap = some req → req.fromCache.isSome →
    respCount rid evs = 0

/-- The page-metrics snapshot of the spec scenario E2E-1:
`{lcp: 5000, cls: 0.3, ttfb: 900}`. -/
def e2ePageMetrics : PageMetrics :=
  { lcp := some 5000, cls := some (0.3 : ℚ), ttfb := some 900 }

/-- Network events of the spec scenario E2E-1: a single request for
`example.com`, finished with 2,000,000 encoded bytes, no cache flags, no
failures. -/
def e2eEvents (bytes : Nat) : List NetEvent :=
  [ .requestWillBeSent "A" "https://example.com/a.js" none (some "Script") none 0,
    .loadingFinished "A" (some bytes) none 10 ]

-- ── Association-list lemmas ─────────────────────────────────────────────────

theorem alookup_mapSet_self [DecidableEq κ] (k : κ) (v : α) (l : List (κ × α)) :
    alookup k (mapSet k v l) = some v := by
  induction l with
  | nil => simp [mapSet, alookup]
  | cons hd tl ih =>
    obtain ⟨a, b⟩ := hd
    by_cases h : a = k
    · simp [mapSet, alookup, h]
    · simpa [mapSet, alookup, h] using ih

theorem alookup_mapSet_ne [DecidableEq κ] {k k2 : κ} (h : k2 ≠ k) (v : α)
    (l : List (κ × α)) : alookup k2 (mapSet k v l) = alookup k2 l := by
  have hk : ¬ k = k2 := fun hh => h hh.symm
  induction l with
  | nil => simp [mapSet, alookup, hk]
  | cons hd tl ih =>
    obtain ⟨a, b⟩ := hd
    by_cases h1 : a = k
    · simp [mapSet, alookup, h1, hk]
    · by_cases h3 : a = k2 <;> simp [mapSet, alookup, h1, h3, ih, hk, h]

theorem alookup_adelete_self [DecidableEq κ] (k : κ) (l : List (κ × α)) :
    alookup k (adelete k l) = none := by
  induction l with
  | nil => rfl
  | cons hd tl ih =>
    obtain ⟨a, b⟩ := hd
    by_cases h : a = k
    · simpa [adelete, h] using ih
    · simpa [adelete, alookup, h] using ih

theorem adelete_mapSet_of_none [DecidableEq κ] {k : κ} {l : List (κ × α)}
    (h : alookup k l = none) (v : α) : adelete k (mapSet k v l) = l := by
  induction l with
  | nil => simp [mapSet, adelete]
  | cons hd tl ih =>
    obtain ⟨a, b⟩ := hd
    by_cases h1 : a = k
    · rw [alookup, if_pos h1] at h
      exact absurd h (by simp)
    · have h2 : alookup k tl = none := by rwa [alookup, if_neg h1] at h
      simp [mapSet, adelete, h1, ih h2]

theorem mem_insertByGt (gt : α → α → Bool) (a x : α) (l : List α) :
    x ∈ insertByGt gt a l ↔ x = a ∨ x ∈ l := by
  induction l with
  | nil => simp [insertByGt]
  | cons b tl ih =>
    by_cases h : gt b a = true <;>
      simp [insertByGt, h, ih] <;> tauto

theorem mem_sortByGt (gt : α → α → Bool) (x : α) (l : List α) :
    x ∈ sortByGt gt l ↔ x ∈ l := by
  induction l with
  | nil => simp [sortByGt]
  | cons a tl ih =>
    simp [sortByGt, mem_insertByGt, ih]

theorem domainBump_lookup_self (d : String) (b : Nat)
    (m : List (String × DomainStat)) :
    alookup d (domainBump d b m) = some
      (match alookup d m with
       | some st => { st with requests := st.requests + 1, bytes := st.bytes + b }
       | none => { domain := d, requests := 1, bytes := b }) := by
  induction m with
  | nil => simp [domainBump, alookup]
  | cons hd tl ih =>
    obtain ⟨a, st⟩ := hd
    by_cases h : a = d
    · simp [domainBump, alookup, h]
    · simpa [domainBump, alookup, h] using ih

theorem filterLen_mapSet_le [DecidableEq κ] (P : κ × α → Bool) (k : κ) (v : α)
    (l : List (κ × α)) :
    ((mapSet k v l).filter P).length ≤ (l.filter P).length + 1 := by
  induction l with
  | nil => by_cases h : P (k, v) <;> simp [mapSet, h]
  | cons hd tl ih =>
    obtain ⟨a, b⟩ := hd
    by_cases h1 : a = k
    · subst h1
      by_cases hv : P (a, v) <;> by_cases hb : P (a, b) <;>
        simp [mapSet, List.filter_cons, hv, hb] <;> omega
    · by_cases hb : P (a, b) <;>
        simp [mapSet, h1, List.filter_cons, hb] <;> omega

theorem filterLen_mapSet_lookup [DecidableEq κ] (P : κ × α → Bool) (k : κ)
    (v w : α) (l : List (κ × α)) (h : alookup k l = some w) :
    ((mapSet k v l).filter P).length + (if P (k, w) then 1 else 0)
      = (l.filter P).length + (if P (k, v) then 1 else 0) := by
  induction l with
  | nil => simp [alookup] at h
  | cons hd tl ih =>
    obtain ⟨a, b⟩ := hd
    by_cases h1 : a = k
    · rw [alookup, if_pos h1] at h
      obtain rfl : b = w := Option.some.inj h
      subst h1
      by_cases hv : P (a, v) <;> by_cases hb : P (a, b) <;>
        simp [mapSet, List.filter_cons, hv, hb] <;> omega
    · rw [alookup, if_neg h1] at h
      have ih2 := ih h
      by_cases hb : P (a, b) <;> by_cases hw : P (k, w) <;>
        by_cases hv : P (k, v) <;>
          simp [mapSet, h1, List.filter_cons, hb, hw, hv] at ih2 ⊢ <;> omega

theorem respCount_cons (rid : String) (e : NetEvent) (evs : List NetEvent) :
    respCount rid (e :: evs)
      = respCount rid evs + (if isResponseTo rid e then 1 else 0) := by
  by_cases h : isResponseTo rid e <;>
    simp [respCount, List.filter_cons, h] <;> omega

theorem atMostOneResponse_tail {e : NetEvent} {evs : List NetEvent}
    (h : atMostOneResponse (e :: evs)) : atMostOneResponse evs := by
  intro rid
  have := h rid
  rw [respCount_cons] at this
  omega

/-- One step of the listener preserves the cache-hit invariant, provided
each request identifier gets at most one response event in all. -/
theorem cacheInv_step (parseHost : String → Option String) (s : Session)
    (e : NetEvent) (evs : List NetEvent)
    (hinv : CacheInv s (e :: evs)) (hone : atMostOneResponse (e :: evs)) :
    CacheInv (handleEvent parseHost s e) evs := by
  obtain ⟨hbound, hterm⟩ := hinv
  have hmono : ∀ rid, respCount rid (e :: evs) = 0 → respCount rid evs = 0 := by
    intro rid h
    rw [respCount_cons] at h
    omega
  cases e with
  | requestWillBeSent rid url ity rty ts now =>
    constructor
    · have hle := filterLen_mapSet_le (fun p => p.2.fromCache.isNone) rid
        { url := url, domain := domainOf parseHost url, itype := ity.getD "other",
          resourceType := rty, startMs := now, startTimestamp := ts,
          fromCache := none, mimeType := none, status := none,
          transferBytes := none, durationMs := none } s.requestMap
      simp only [handleEvent, pendingLen] at *
      omega
    · intro rid2 req2 hlk hfc
      simp only [handleEvent] at hlk
      by_cases h2 : rid2 = rid
      · subst h2
        rw [alookup_mapSet_self] at hlk
        obtain heq : _ = req2 := Option.some.inj hlk
        rw [← heq] at hfc
        simp at hfc
      · rw [alookup_mapSet_ne h2] at hlk
        exact hmono rid2 (hterm rid2 req2 hlk hfc)
  | responseReceived rid dc pc sw mime st =>
    cases hlk : alookup rid s.requestMap with
    | none =>
      constructor
      · simpa [handleEvent, hlk] using hbound
      · intro rid2 req2 h2 h3
        simp only [handleEvent, hlk] at h2
        exact hmono rid2 (hterm rid2 req2 h2 h3)
    | some req =>
      by_cases hfc : req.fromCache.isSome = true
      · exfalso
        have h0 := hterm rid req hlk hfc
        rw [respCount_cons] at h0
        simp [isResponseTo] at h0
      · have hfc' : req.fromCache = none := Option.not_isSome_iff_eq_none.mp hfc
        have hexch := filterLen_mapSet_lookup (fun p => p.2.fromCache.isNone) rid
          { req with fromCache := some (dc || pc || sw), mimeType := some (mime.getD ""), status := some st }
          req s.requestMap hlk
        simp only [hfc', Option.isNone_none, Option.isNone_some, if_pos, if_neg,
          Bool.false_eq_true, if_false, if_true] at hexch
        constructor
        · simp only [pendingLen] at hbound ⊢
          simp only [handleEvent, hlk]
          cases hc : (dc || pc || sw) <;>
            rw [hc] at hexch <;> simp <;> omega
        · intro rid2 req2 h2 h3
          simp only [handleEvent, hlk] at h2
          by_cases h4 : rid2 = rid
          · subst h4
            have h5 := hone rid2
            rw [respCount_cons] at h5
            simp [isResponseTo] at h5
            omega
          · rw [alookup_mapSet_ne h4] at h2
            exact hmono rid2 (hterm rid2 req2 h2 h3)
  | loadingFinished rid enc ts now =>
    cases hlk : alookup rid s.requestMap with
    | none =>
      constructor
      · simpa [handleEvent, hlk] using hbound
      · intro rid2 req2 h2 h3
        simp only [handleEvent, hlk] at h2
        exact hmono rid2 (hterm rid2 req2 h2 h3)
    | some req =>
      obtain ⟨v, hmap, hvfc⟩ :
          ∃ v : PendingRequest,
            (handleEvent parseHost s (.loadingFinished rid enc ts now)).requestMap
              = mapSet rid v s.requestMap ∧ v.fromCache = req.fromCache :=
        ⟨_, by simp only [handleEvent, hlk]; rfl, by rfl⟩
      have hexch := filterLen_mapSet_lookup (fun p => p.2.fromCache.isNone) rid
        v req s.requestMap hlk
      simp only [hvfc] at hexch
      constructor
      · have hch : (handleEvent parseHost s
            (.loadingFinished rid enc ts now)).cacheHits = s.cacheHits := by
          simp [handleEvent, hlk]
        have hrt : (handleEvent parseHost s
            (.loadingFinished rid enc ts now)).requestsTotal = s.requestsTotal := by
          simp [handleEvent, hlk]
        rw [hch, hrt, hmap]
        simp only [pendingLen] at hbound ⊢
        omega
      · intro rid2 req2 h2 h3
        rw [hmap] at h2
        by_cases h4 : rid2 = rid
        · subst h4
          rw [alookup_mapSet_self] at h2
          obtain heq : v = req2 := Option.some.inj h2
          rw [← heq, hvfc] at h3
          exact hmono rid2 (hterm rid2 req hlk h3)
        · rw [alookup_mapSet_ne h4] at h2
          exact hmono rid2 (hterm rid2 req2 h2 h3)
  | loadingFailed rid errText ltype =>
    cases hlk : alookup rid s.requestMap with
    | none =>
      constructor
      · simpa [handleEvent, hlk] using hbound
      · intro rid2 req2 h2 h3
        simp only [handleEvent, hlk] at h2
        exact hmono rid2 (hterm rid2 req2 h2 h3)
    | some req =>
      constructor
      · simpa [handleEvent, hlk, pendingLen] using hbound
      · intro rid2 req2 h2 h3
        simp only [handleEvent, hlk] at h2
        exact hmono rid2 (hterm rid2 req2 h2 h3)
  | tracingDataCollected chunk =>
    cases chunk with
    | none =>
      exact ⟨hbound, fun rid2 req2 h2 h3 => hmono rid2 (hterm rid2 req2 h2 h3)⟩
    | some c =>
      by_cases htr : s.traceEnabled = true <;>
        exact ⟨by simpa [handleEvent, htr, pendingLen] using hbound,
          fun rid2 req2 h2 h3 => hmono rid2 (hterm rid2 req2
            (by simpa [handleEvent, htr] using h2) h3)⟩
  | tracingComplete =>
    exact ⟨hbound, fun rid2 req2 h2 h3 => hmono rid2 (hterm rid2 req2 h2 h3)⟩

/-- Folding the listener over a delivery with at most one response per
request keeps `cacheHits + pending ≤ requestsTotal`. -/
theorem cacheInv_run (parseHost : String → Option String) (evs : List NetEvent)
    (s : Session) (hinv : CacheInv s evs) (hone : atMostOneResponse evs) :
    (runEvents parseHost s evs).cacheHits
        + pendingLen (runEvents parseHost s evs).requestMap
      ≤ (runEvents parseHost s evs).requestsTotal := by
  induction evs generalizing s with
  | nil => exact hinv.1
  | cons e tl ih =>
    have h1 := cacheInv_step parseHost s e tl hinv hone
    have h2 := atMostOneResponse_tail hone
    simpa [runEvents, List.foldl_cons] using ih (handleEvent parseHost s e) h1 h2

-- ── C1: unconditional teardown in stopMeasurement ───────────────────────────

/-- C1: for every call of `stopMeasurement` on a tab with an active session
and every combination of injected failures in the best-effort steps
(page-metrics snapshot, observer stop, trace end) and of events delivered
during the grace wait, the debugger is detached and the session is removed
from the session store exactly once, and the call returns normally. -/
theorem c1_stop_always_detaches (parseHost : String → Option String)
    (store : Store) (tabId : Nat) (env : StopEnv)
    (h : (alookup tabId store).isSome = true) :
    ((stopMeasurement parseHost store tabId env).acts.count (Act.detach tabId) = 1) ∧
    ((stopMeasurement parseHost store tabId env).acts.count (Act.storeDelete tabId) = 1) ∧
    alookup tabId (stopMeasurement parseHost store tabId env).store = none ∧
    ∃ r, (stopMeasurement parseHost store tabId env).result = .ok r := by
  obtain ⟨s, hs⟩ := Option.isSome_iff_exists.mp h
  by_cases h1 : env.snapshotThrows <;>
    by_cases h2 : s.traceEnabled = true ∧ s.traceChunks = [] <;>
      by_cases h3 : env.traceEndThrows <;>
        simp [stopMeasurement, hs, h1, h2, h3, alookup_adelete_self,
          List.count_append, List.count_cons, List.count_nil]

/-- C1 witness: a concrete session with tracing active, a failing snapshot
step and a failing trace end still detaches and removes exactly once. -/
theorem c1_stop_always_detaches_witness :
    ((stopMeasurement urlHostModel [(1, { createSession 1 0 with traceEnabled := true })] 1
        { snapshotThrows := true, traceEndThrows := true }).acts.count (Act.detach 1) = 1) ∧
    ((stopMeasurement urlHostModel [(1, { createSession 1 0 with traceEnabled := true })] 1
        { snapshotThrows := true, traceEndThrows := true }).acts.count (Act.storeDelete 1) = 1) ∧
    alookup 1 (stopMeasurement urlHostModel [(1, { createSession 1 0 with traceEnabled := true })] 1
        { snapshotThrows := true, traceEndThrows := true }).store = none ∧
    ∃ r, (stopMeasurement urlHostModel [(1, { createSession 1 0 with traceEnabled := true })] 1
        { snapshotThrows := true, traceEndThrows := true }).result = .ok r :=
  c1_stop_always_detaches urlHostModel
    [(1, { createSession 1 0 with traceEnabled := true })] 1
    { snapshotThrows := true, traceEndThrows := true } (by decide)

-- ── C2: registration versus the channel-enable step ─────────────────────────

/-- C2 counterexample: with every external step succeeding, the session is
written to the session store (action index 1) strictly before the mandatory
`Network.enable` command is issued (action index 2), so the session is not
registered "only after the channel-enable step has succeeded". -/
theorem c2_register_before_enable_counterexample :
    ((startMeasurement [] [] 1 {} {}).acts.findIdx Act.isStoreSet = 1) ∧
    ((startMeasurement [] [] 1 {} {}).acts.findIdx Act.isNetworkEnable = 2) ∧
    (startMeasurement [] [] 1 {} {}).result = .ok () :=
  ⟨by decide, by decide, rfl⟩

/-- C2 amended: the session is registered immediately after attach and
before the channel-enable command; when `Network.enable` fails, the session
is removed and the debugger detached before `startMeasurement` throws, so a
failed start leaves no session registered and no debugger attached (the
store and attach set end exactly as they began). -/
theorem c2_failed_enable_leaves_nothing (store : Store) (attached : List Nat)
    (tabId : Nat) (opts : StartOptions) (env : StartEnv)
    (hno : alookup tabId store = none) (hatt : env.attachOk = true)
    (hne : env.networkEnableOk = false) :
    (startMeasurement store attached tabId opts env).result =
      .error "Failed to enable Network" ∧
    (startMeasurement store attached tabId opts env).store = store ∧
    (startMeasurement store attached tabId opts env).attached = attached ∧
    ((startMeasurement store attached tabId opts env).acts.findIdx Act.isStoreSet = 1) ∧
    ((startMeasurement store attached tabId opts env).acts.findIdx Act.isNetworkEnable = 2) := by
  have hhas : ahas tabId store = false := by simp [ahas, hno]
  simp [startMeasurement, hhas, hatt, hne, adelete_mapSet_of_none hno,
    List.findIdx_cons, Act.isStoreSet, Act.isNetworkEnable]

/-- C2 amended witness at a concrete failing start. -/
theorem c2_failed_enable_leaves_nothing_witness :
    (startMeasurement [] [] 1 {} { networkEnableOk := false }).result =
      .error "Failed to enable Network" ∧
    (startMeasurement [] [] 1 {} { networkEnableOk := false }).store = [] ∧
    (startMeasurement [] [] 1 {} { networkEnableOk := false }).attached = [] ∧
    ((startMeasurement [] [] 1 {} { networkEnableOk := false }).acts.findIdx
      Act.isStoreSet = 1) ∧
    ((startMeasurement [] [] 1 {} { networkEnableOk := false }).acts.findIdx
      Act.isNetworkEnable = 2) :=
  c2_failed_enable_leaves_nothing [] [] 1 {} { networkEnableOk := false }
    rfl rfl rfl

-- ── C3: terminal events are not idempotent ──────────────────────────────────

/-- C3 counterexample: a request of 100 bytes whose `loadingFinished` event
is delivered twice is counted twice — `transferredBytes` goes from 100 to
200 and the `example.com` rollup reaches 2 requests and 200 bytes,
refuting the claim that a repeated finished event increments the totals
only once. -/
theorem c3_double_finished_counterexample :
    ((runEvents urlHostModel (createSession 1 0)
      [ .requestWillBeSent "r1" "https://example.com/a.js" none none none 0,
        .loadingFinished "r1" (some 100) none 5 ]).transferredBytes = 100) ∧
    ((runEvents urlHostModel (createSession 1 0)
      [ .requestWillBeSent "r1" "https://example.com/a.js" none none none 0,
        .loadingFinished "r1" (some 100) none 5,
        .loadingFinished "r1" (some 100) none 6 ]).transferredBytes = 200) ∧
    (alookup "example.com" (runEvents urlHostModel (createSession 1 0)
      [ .requestWillBeSent "r1" "https://example.com/a.js" none none none 0,
        .loadingFinished "r1" (some 100) none 5,
        .loadingFinished "r1" (some 100) none 6 ]).domainMap =
      some { domain := "example.com", requests := 2, bytes := 200 }) := by decide

/-- C3 amended: the listener never marks a request terminal — every
`loadingFinished` event whose request identifier is present in the request
map adds its bytes to `transferredBytes` and bumps the per-domain rollup
again, so a repeated finished event is double-counted. -/
theorem c3_finished_always_increments (parseHost : String → Option String)
    (s : Session) (rid : String) (req : PendingRequest) (enc : Option Nat)
    (ts : Option ℚ) (now : Int) (h : alookup rid s.requestMap = some req) :
    ((handleEvent parseHost s (.loadingFinished rid enc ts now)).transferredBytes
        = s.transferredBytes + enc.getD 0) ∧
    (alookup (req.domain.getD "unknown")
        (handleEvent parseHost s (.loadingFinished rid enc ts now)).domainMap
      = some (match alookup (req.domain.getD "unknown") s.domainMap with
         | some st => { st with requests := st.requests + 1, bytes := st.bytes + enc.getD 0 }
         | none => { domain := req.domain.getD "unknown", requests := 1,
                     bytes := enc.getD 0 })) := by
  constructor
  · simp [handleEvent, h]
  · simp [handleEvent, h, domainBump_lookup_self]

/-- C3 amended witness: the second finished event for an already-finished
100-byte request adds another 100 bytes. -/
theorem c3_finished_always_increments_witness :
    ((handleEvent urlHostModel (runEvents urlHostModel (createSession 1 0)
        [ .requestWillBeSent "r1" "https://example.com/a.js" none none none 0,
          .loadingFinished "r1" (some 100) none 5 ])
        (.loadingFinished "r1" (some 100) none 6)).transferredBytes
      = (runEvents urlHostModel (createSession 1 0)
        [ .requestWillBeSent "r1" "https://example.com/a.js" none none none 0,
          .loadingFinished "r1" (some 100) none 5 ]).transferredBytes + 100) ∧
    (alookup "example.com"
        (handleEvent urlHostModel (runEvents urlHostModel (createSession 1 0)
          [ .requestWillBeSent "r1" "https://example.com/a.js" none none none 0,
            .loadingFinished "r1" (some 100) none 5 ])
          (.loadingFinished "r1" (some 100) none 6)).domainMap
      = some { domain := "example.com", requests := 2, bytes := 200 }) := by
  have h := c3_finished_always_increments urlHostModel
    (runEvents urlHostModel (createSession 1 0)
      [ .requestWillBeSent "r1" "https://example.com/a.js" none none none 0,
        .loadingFinished "r1" (some 100) none 5 ])
    "r1"
    { url := "https://example.com/a.js", domain := some "example.com",
      itype := "other", resourceType := none, startMs := 0,
      startTimestamp := none, fromCache := none, mimeType := none,
      status := none, transferBytes := some 100, durationMs := some 5 }
    (some 100) none 6 (by decide)
  exact ⟨h.1, by simpa using h.2⟩

-- ── C4: the E2E-1 insight scenario ──────────────────────────────────────────

/-- C4 counterexample: at the exact E2E-1 input — one finished request of
2,000,000 bytes for `example.com`, no failures, one request total, no cache
flags, page metrics lcp 5000 / cls 0.3 / ttfb 900 — the generated insights
are the lcp, cls and ttfb findings only: 2,000,000 bytes does not exceed
the heavy-page threshold `2 * 1024 * 1024 = 2,097,152`, so no heavy-page
finding is generated and the claimed four-element order cannot occur. -/
theorem c4_e2e1_counterexample :
    generateInsights (buildRunReport e2ePageMetrics
        (buildNetworkData (runEvents urlHostModel (createSession 1 0) (e2eEvents 2000000))
          (urlHostModel "https://example.com/"))) =
      [ { cls := .poor, rule := .lcpVerySlow },
        { cls := .poor, rule := .clsHigh },
        { cls := .needs, rule := .ttfbSlow } ] := by
  have hu1 : urlHostModel "https://example.com/a.js" = some "example.com" := by decide
  have hu2 : urlHostModel "https://example.com/" = some "example.com" := by decide
  norm_num [generateInsights, buildRunReport, buildNetworkData, runEvents,
    handleEvent, e2eEvents, e2ePageMetrics, createSession, domainOf, hu1, hu2,
    alookup, mapSet, domainBump, sortByGt, insertByGt, optGtNat]

/-- C4 amended: with the finished request enlarged past the 2 MiB threshold
(2,100,000 bytes), the insight list is exactly the lcp "poor", cls "poor",
ttfb "needs-improvement" and heavy-page "poor" findings, in that relative
order. -/
theorem c4_e2e1_amended :
    generateInsights (buildRunReport e2ePageMetrics
        (buildNetworkData (runEvents urlHostModel (createSession 1 0) (e2eEvents 2100000))
          (urlHostModel "https://example.com/"))) =
      [ { cls := .poor, rule := .lcpVerySlow },
        { cls := .poor, rule := .clsHigh },
        { cls := .needs, rule := .ttfbSlow },
        { cls := .poor, rule := .heavyPage } ] := by
  have hu1 : urlHostModel "https://example.com/a.js" = some "example.com" := by decide
  have hu2 : urlHostModel "https://example.com/" = some "example.com" := by decide
  norm_num [generateInsights, buildRunReport, buildNetworkData, runEvents,
    handleEvent, e2eEvents, e2ePageMetrics, createSession, domainOf, hu1, hu2,
    alookup, mapSet, domainBump, sortByGt, insertByGt, optGtNat]

-- ── C6: start on an already-active target ───────────────────────────────────

/-- C6: calling `startMeasurement` on a tab that already has a session in
the store throws the already-active error immediately and performs no
action at all — the store (hence the existing session) and the attach set
are returned unchanged, preserving the one-session-per-target invariant. -/
theorem c6_start_already_active (store : Store) (attached : List Nat)
    (tabId : Nat) (opts : StartOptions) (env : StartEnv)
    (h : ahas tabId store = true) :
    startMeasurement store attached tabId opts env =
      { result := .error "Measurement already active for this tab.",
        store := store, attached := attached, acts := [] } := by
  simp [startMeasurement, h]

/-- C6 witness at a concrete active session. -/
theorem c6_start_already_active_witness :
    startMeasurement [(1, createSession 1 0)] [1] 1 {} {} =
      { result := .error "Measurement already active for this tab.",
        store := [(1, createSession 1 0)], attached := [1], acts := [] } :=
  c6_start_already_active [(1, createSession 1 0)] [1] 1 {} {} (by decide)

-- ── C7: mutability of the session option flags ──────────────────────────────

/-- C7 counterexample: starting with tracing requested while `Tracing.start`
fails first registers the session with `traceEnabled = true` (the recorded
`storeSet`) and then clears the flag of the registered session to `false`
during the same start — the flag is set twice and mutates during the
session lifetime, refuting strict immutability. -/
theorem c7_trace_flag_mutates_counterexample :
    (Act.storeSet 1 { createSession 1 0 with traceEnabled := true })
        ∈ (startMeasurement [] [] 1 { traceEnabled := true }
            { tracingStartOk := false }).acts ∧
    ((alookup 1 (startMeasurement [] [] 1 { traceEnabled := true }
        { tracingStartOk := false }).store).map Session.traceEnabled) = some false := by
  exact ⟨by decide, by decide⟩

/-- C7 amended: `coldLoad` is set once at start and never changes;
`traceEnabled` is set at start and cleared during start exactly when trace
capture was requested and failed to start; after a successful start the
stored flags are `coldLoad` and `traceEnabled && tracingStartOk`, and no
network/tracing event ever mutates either flag. -/
theorem c7_flags_after_start (parseHost : String → Option String) (s : Session)
    (e : NetEvent) (store : Store) (attached : List Nat) (tabId : Nat)
    (opts : StartOptions) (env : StartEnv)
    (hno : alookup tabId store = none) (hatt : env.attachOk = true)
    (hen : env.networkEnableOk = true) :
    ((handleEvent parseHost s e).coldLoad = s.coldLoad) ∧
    ((handleEvent parseHost s e).traceEnabled = s.traceEnabled) ∧
    ((alookup tabId (startMeasurement store attached tabId opts env).store).map
        Session.coldLoad = some opts.coldLoad) ∧
    ((alookup tabId (startMeasurement store attached tabId opts env).store).map
        Session.traceEnabled = some (opts.traceEnabled && env.tracingStartOk)) := by
  have hhas : ahas tabId store = false := by simp [ahas, hno]
  refine ⟨?_, ?_, ?_, ?_⟩
  · cases e <;> simp only [handleEvent] <;> (repeat' split) <;> rfl
  · cases e <;> simp only [handleEvent] <;> (repeat' split) <;> rfl
  · by_cases ht : opts.traceEnabled = true <;>
      by_cases hts : env.tracingStartOk = true <;>
        simp [startMeasurement, hhas, hatt, hen, ht, hts, alookup_mapSet_self]
  · by_cases ht : opts.traceEnabled = true <;>
      by_cases hts : env.tracingStartOk = true <;>
        simp [startMeasurement, hhas, hatt, hen, ht, hts, alookup_mapSet_self]

/-- C7 amended witness: a concrete start with tracing requested and failing
stores `coldLoad = false`, `traceEnabled = true && false = false`, and a
concrete event preserves both flags. -/
theorem c7_flags_after_start_witness :
    ((handleEvent urlHostModel (createSession 1 0) .tracingComplete).coldLoad =
        (createSession 1 0).coldLoad) ∧
    ((handleEvent urlHostModel (createSession 1 0) .tracingComplete).traceEnabled =
        (createSession 1 0).traceEnabled) ∧
    ((alookup 1 (startMeasurement [] [] 1 { traceEnabled := true }
        { tracingStartOk := false }).store).map Session.coldLoad = some false) ∧
    ((alookup 1 (startMeasurement [] [] 1 { traceEnabled := true }
        { tracingStartOk := false }).store).map Session.traceEnabled =
      some (true && false)) :=
  c7_flags_after_start urlHostModel (createSession 1 0) .tracingComplete
    [] [] 1 { traceEnabled := true } { tracingStartOk := false } rfl rfl rfl

-- ── C8: the all-quiet report and the synthetic good finding ─────────────────

/-- C8 counterexample: a report with all timings null, zero requests, zero
transferred bytes, no failures and no domain rollups, but 500 ms of long
tasks, yields the long-task "poor" finding rather than the synthetic "good"
finding — the claim misses the long-task rule, whose input is not
constrained by its hypothesis. -/
theorem c8_long_tasks_counterexample :
    generateInsights
      { timings := {},
        longTasks := { totalMs := some 500 },
        network := { requestsTotal := some 0, transferredBytes := some 0,
                     cacheHitRate := none, failures := some [], byDomain := some [] } }
      = [{ cls := .poor, rule := .longTasksHigh }] := by decide

/-- C8 amended: a report with all timings null, zero requests, zero
transferred bytes, no failures, no domain rollups, and long-task time not
above the 200 ms threshold, yields exactly the single synthetic "good"
finding. -/
theorem c8_quiet_report_good (r : Report)
    (hlcp : r.timings.lcp = none) (hinp : r.timings.inp = none)
    (hcls : r.timings.cls = none) (httfb : r.timings.ttfb = none)
    (hfcp : r.timings.fcp = none) (hdcl : r.timings.dcl = none)
    (hload : r.timings.load = none)
    (hreq : r.network.requestsTotal.getD 0 = 0)
    (hbytes : r.network.transferredBytes.getD 0 = 0)
    (hfail : r.network.failures.getD [] = [])
    (hdom : r.network.byDomain.getD [] = [])
    (hlt : r.longTasks.totalMs.getD 0 ≤ 200) :
    generateInsights r = [{ cls := .good, rule := .allGood }] := by
  have hlt3 : ¬ (r.longTasks.totalMs.getD 0 > 200) := not_lt.mpr hlt
  rcases hb : r.network.transferredBytes with _ | b <;>
    rcases hq : r.network.requestsTotal with _ | q <;>
      rcases hd : r.network.byDomain with _ | ds <;>
        rcases hf : r.network.failures with _ | fs <;>
          rcases hl : r.longTasks.totalMs with _ | v <;>
            rcases hc : r.network.cacheHitRate with _ | rate <;>
              simp_all [generateInsights, optGtNat]

/-- C8 amended witness at a concrete quiet report. -/
theorem c8_quiet_report_good_witness :
    generateInsights
      { timings := {},
        longTasks := { totalMs := some 0 },
        network := { requestsTotal := some 0, transferredBytes := some 0,
                     cacheHitRate := none, failures := some [], byDomain := some [] } }
      = [{ cls := .good, rule := .allGood }] :=
  c8_quiet_report_good
    { timings := {},
      longTasks := { totalMs := some 0 },
      network := { requestsTotal := some 0, transferredBytes := some 0,
                   cacheHitRate := none, failures := some [], byDomain := some [] } }
    rfl rfl rfl rfl rfl rfl rfl rfl rfl rfl rfl (by norm_num)

-- ── C9: request-initiated events always count and always overwrite ──────────

/-- C9: every `Network.requestWillBeSent` event increments `requestsTotal`
by exactly one — also when the request identifier is already present — and
installs a fresh pending record whose cache flag, mime type, status and
transfer data are unset and whose start times come from the new event,
discarding everything previously recorded under that identifier. -/
theorem c9_request_initiated_overwrites (parseHost : String → Option String)
    (s : Session) (rid url : String) (ity rty : Option String)
    (ts : Option ℚ) (now : Int) :
    ((handleEvent parseHost s (.requestWillBeSent rid url ity rty ts now)).requestsTotal
        = s.requestsTotal + 1) ∧
    (alookup rid (handleEvent parseHost s
        (.requestWillBeSent rid url ity rty ts now)).requestMap
      = some { url := url, domain := domainOf parseHost url,
               itype := ity.getD "other", resourceType := rty,
               startMs := now, startTimestamp := ts, fromCache := none,
               mimeType := none, status := none, transferBytes := none,
               durationMs := none }) :=
  ⟨rfl, by simp [handleEvent, alookup_mapSet_self]⟩

-- ── C10: unparseable URLs and the "unknown" rollup ──────────────────────────

/-- C10 counterexample: a request with an unparseable URL is rolled up under
the domain key "unknown", but when the page host is known and happens to be
the hostname string "unknown" (tab URL `http://unknown/`), the comparison
`d.domain !== pageHost` marks that rollup `thirdParty = false`, refuting
the claim that it is third-party whenever the page host is known. -/
theorem c10_unknown_host_counterexample :
    (urlHostModel "notaurl" = none) ∧
    (urlHostModel "http://unknown/" = some "unknown") ∧
    ((buildNetworkData (runEvents urlHostModel (createSession 1 0)
        [ .requestWillBeSent "r1" "notaurl" none none none 0,
          .loadingFinished "r1" (some 500) none 5 ])
      (urlHostModel "http://unknown/")).byDomain =
      [{ domain := "unknown", requests := 1, bytes := 500, thirdParty := false }]) := by
  exact ⟨by decide, by decide, by decide⟩

/-- C10 amended: processing an event whose request URL does not parse never
throws (the handler is total); the request record carries a null domain,
its bytes are rolled up under the key "unknown" on finish, and that rollup
is marked third-party in the assembled `byDomain` list whenever the page
host is known, non-empty and not itself the string "unknown". -/
theorem c10_unparseable_url_unknown (parseHost : String → Option String)
    (s : Session) (rid url : String) (ity rty : Option String)
    (ts ts2 : Option ℚ) (now now2 : Int) (enc : Option Nat) (host : String)
    (hurl : parseHost url = none) (hh1 : host ≠ "") (hh2 : host ≠ "unknown") :
    ((alookup rid (handleEvent parseHost s
        (.requestWillBeSent rid url ity rty ts now)).requestMap).map
          PendingRequest.domain = some none) ∧
    (alookup "unknown" (handleEvent parseHost
        (handleEvent parseHost s (.requestWillBeSent rid url ity rty ts now))
        (.loadingFinished rid enc ts2 now2)).domainMap
      = some (match alookup "unknown" s.domainMap with
         | some st => { st with requests := st.requests + 1, bytes := st.bytes + enc.getD 0 }
         | none => { domain := "unknown", requests := 1, bytes := enc.getD 0 })) ∧
    (∀ d ∈ (buildNetworkData (handleEvent parseHost
        (handleEvent parseHost s (.requestWillBeSent rid url ity rty ts now))
        (.loadingFinished rid enc ts2 now2)) (some host)).byDomain,
      d.domain = "unknown" → d.thirdParty = true) := by
  refine ⟨?_, ?_, ?_⟩
  · simp [handleEvent, alookup_mapSet_self, domainOf, hurl]
  · simp [handleEvent, alookup_mapSet_self, domainOf, hurl,
      domainBump_lookup_self]
  · intro d hd hdom
    have hmem := (mem_sortByGt _ _ _).mp hd
    simp only [buildNetworkData, List.mem_map] at hmem
    obtain ⟨p, _, hp⟩ := hmem
    subst hp
    simp only at hdom
    have hne : ¬ ("unknown" = host) := fun hh => hh2 hh.symm
    simp [hh1, hdom, hne]

/-- C10 amended witness: a concrete unparseable URL, 500 bytes, page host
`example.com`. -/
theorem c10_unparseable_url_unknown_witness :
    ((alookup "r1" (handleEvent urlHostModel (createSession 1 0)
        (.requestWillBeSent "r1" "notaurl" none none none 0)).requestMap).map
          PendingRequest.domain = some none) ∧
    (alookup "unknown" (handleEvent urlHostModel
        (handleEvent urlHostModel (createSession 1 0)
          (.requestWillBeSent "r1" "notaurl" none none none 0))
        (.loadingFinished "r1" (some 500) none 5)).domainMap
      = some (match alookup "unknown" (createSession 1 0).domainMap with
         | some st => { st with requests := st.requests + 1, bytes := st.bytes + (some 500).getD 0 }
         | none => { domain := "unknown", requests := 1, bytes := (some 500).getD 0 })) ∧
    (∀ d ∈ (buildNetworkData (handleEvent urlHostModel
        (handleEvent urlHostModel (createSession 1 0)
          (.requestWillBeSent "r1" "notaurl" none none none 0))
        (.loadingFinished "r1" (some 500) none 5))
        (some "example.com")).byDomain,
      d.domain = "unknown" → d.thirdParty = true) :=
  c10_unparseable_url_unknown urlHostModel (createSession 1 0) "r1" "notaurl"
    none none none none 0 5 (some 500) "example.com"
    (by decide) (by decide) (by decide)

-- ── C5: the cache hit rate ──────────────────────────────────────────────────

/-- C5 counterexample: one request followed by two cached
`responseReceived` events for the same request identifier gives
`cacheHits = 2` with `requestsTotal = 1`, so at stop time the computed
`cacheHitRate` is 2, outside the claimed interval [0,1]. -/
theorem c5_rate_above_one_counterexample :
    ((buildNetworkData (runEvents urlHostModel (createSession 1 0)
      [ .requestWillBeSent "r1" "https://example.com/a.js" none none none 0,
        .responseReceived "r1" true false false none 200,
        .responseReceived "r1" true false false none 200 ]) none).cacheHitRate
      = some 2) ∧ ¬ ((2 : ℚ) ≤ 1) := by
  constructor
  · have h1 : (runEvents urlHostModel (createSession 1 0)
        [ .requestWillBeSent "r1" "https://example.com/a.js" none none none 0,
          .responseReceived "r1" true false false none 200,
          .responseReceived "r1" true false false none 200 ]).cacheHits = 2 := by
      decide
    have h2 : (runEvents urlHostModel (createSession 1 0)
        [ .requestWillBeSent "r1" "https://example.com/a.js" none none none 0,
          .responseReceived "r1" true false false none 200,
          .responseReceived "r1" true false false none 200 ]).requestsTotal = 1 := by
      decide
    norm_num [buildNetworkData, h1, h2]
  · norm_num

/-- C5 amended: starting from a fresh session, for every delivered event
sequence the assembled `cacheHitRate` is absent exactly when
`requestsTotal` is zero and otherwise equals `cacheHits / requestsTotal`;
whenever each request identifier receives at most one `responseReceived`
event, the rate lies in the interval [0,1]. -/
theorem c5_cache_hit_rate (parseHost : String → Option String) (tabId : Nat)
    (t0 : Int) (evs : List NetEvent) (pageHost : Option String)
    (hone : atMostOneResponse evs) :
    ((runEvents parseHost (createSession tabId t0) evs).requestsTotal = 0 ↔
      (buildNetworkData (runEvents parseHost (createSession tabId t0) evs)
        pageHost).cacheHitRate = none) ∧
    (∀ q, (buildNetworkData (runEvents parseHost (createSession tabId t0) evs)
        pageHost).cacheHitRate = some q →
      q = ((runEvents parseHost (createSession tabId t0) evs).cacheHits : ℚ) /
          ((runEvents parseHost (createSession tabId t0) evs).requestsTotal : ℚ) ∧
      0 ≤ q ∧ q ≤ 1) := by
  have hinv0 : CacheInv (createSession tabId t0) evs := by
    constructor
    · simp [createSession, pendingLen]
    · intro rid req h
      simp [createSession, alookup] at h
  have hbound := cacheInv_run parseHost evs (createSession tabId t0) hinv0 hone
  have hle : (runEvents parseHost (createSession tabId t0) evs).cacheHits
      ≤ (runEvents parseHost (createSession tabId t0) evs).requestsTotal :=
    le_trans (Nat.le_add_right _ _) hbound
  constructor
  · constructor
    · intro h0
      simp [buildNetworkData, h0]
    · intro hnone
      by_contra hne
      have hpos : 0 < (runEvents parseHost (createSession tabId t0) evs).requestsTotal :=
        Nat.pos_of_ne_zero hne
      simp [buildNetworkData, hpos] at hnone
  · intro q hq
    have hpos : 0 < (runEvents parseHost (createSession tabId t0) evs).requestsTotal := by
      by_contra hz
      have h0 : (runEvents parseHost (createSession tabId t0) evs).requestsTotal = 0 := by
        omega
      simp [buildNetworkData, h0] at hq
    have hq2 : q = ((runEvents parseHost (createSession tabId t0) evs).cacheHits : ℚ) /
        ((runEvents parseHost (createSession tabId t0) evs).requestsTotal : ℚ) := by
      simp only [buildNetworkData, if_pos hpos] at hq
      exact (Option.some.inj hq).symm
    refine ⟨hq2, ?_, ?_⟩
    · rw [hq2]
      exact div_nonneg (Nat.cast_nonneg _) (Nat.cast_nonneg _)
    · rw [hq2]
      rw [div_le_one (by exact_mod_cast hpos)]
      exact_mod_cast hle

/-- C5 amended witness: one request and one cached response give a rate of
1 (and a defined, in-range rate in general). -/
theorem c5_cache_hit_rate_witness :
    ((runEvents urlHostModel (createSession 1 0)
      [ .requestWillBeSent "r1" "https://example.com/a.js" none none none 0,
        .responseReceived "r1" true false false none 200 ]).requestsTotal = 0 ↔
      (buildNetworkData (runEvents urlHostModel (createSession 1 0)
        [ .requestWillBeSent "r1" "https://example.com/a.js" none none none 0,
          .responseReceived "r1" true false false none 200 ]) none).cacheHitRate = none) ∧
    (∀ q, (buildNetworkData (runEvents urlHostModel (createSession 1 0)
        [ .requestWillBeSent "r1" "https://example.com/a.js" none none none 0,
          .responseReceived "r1" true false false none 200 ]) none).cacheHitRate = some q →
      q = ((runEvents urlHostModel (createSession 1 0)
        [ .requestWillBeSent "r1" "https://example.com/a.js" none none none 0,
          .responseReceived "r1" true false false none 200 ]).cacheHits : ℚ) /
          ((runEvents urlHostModel (createSession 1 0)
        [ .requestWillBeSent "r1" "https://example.com/a.js" none none none 0,
          .responseReceived "r1" true false false none 200 ]).requestsTotal : ℚ) ∧
      0 ≤ q ∧ q ≤ 1) :=
  c5_cache_hit_rate urlHostModel 1 0
    [ .requestWillBeSent "r1" "https://example.com/a.js" none none none 0,
      .responseReceived "r1" true false false none 200 ] none
    (by
      intro rid
      by_cases h : "r1" = rid <;>
        simp [respCount, isResponseTo, List.filter, h])

end PerfChecker
